import Mathlib

/-!
Shallow embedding of `packages/cli/src/commands/add/plugin/create-new-plugin.ts`
(the `vendure add plugin` scaffolding command) and the specification claims
about it.

JavaScript strings are modelled as `List Char` (`JStr`).  Node/library
facilities that the command calls but whose code is outside this file's
source tree (the `change-case` converters, Node `path` joining, the
`clack/prompts` re-prompt loop, the ts-morph backed config helpers) are
modelled explicitly; each such definition carries a doc comment saying what
it models.  Filesystem and console effects are reified as an explicit trace
of `Eff` values so that frame conditions ("no disk write before ...") are
provable statements about the trace.
-/

abbrev JStr := List Char

/-- Lowercasing of a JS string, used to embed the `i` flag of the regex
`-?plugin$` (case-insensitive) in `create-new-plugin.ts`; only ASCII inputs
reach it. -/
def toLowerStr (s : JStr) : JStr := s.map Char.toLower

/-- Embedding of `name.replace(` regex `-?plugin$` case-insensitive `, '')`
(lines 106 and 151): strip one optional trailing `-plugin` or `plugin`,
case-insensitively; the optional dash is matched greedily, so a trailing
`-plugin` removes seven characters, a bare `plugin` six. -/
def stripPluginSuffix (s : JStr) : JStr :=
  if "-plugin".toList <:+ toLowerStr s then s.take (s.length - 7)
  else if "plugin".toList <:+ toLowerStr s then s.take (s.length - 6)
  else s

/-- The normalization of line 107: `nameWithoutPlugin + '-plugin'`. -/
def normalizeName (s : JStr) : JStr := stripPluginSuffix s ++ "-plugin".toList

/-- Character class `[a-z-0-9]` of the validation regex at line 26. -/
def isNameChar (c : Char) : Bool :=
  ('a' ≤ c && c ≤ 'z') || ('0' ≤ c && c ≤ '9') || c = '-'

/-- Embedding of the name validation test of line 26, regex
`^[a-z][a-z-0-9]+$`: a lowercase letter followed by at least one further
lowercase letter, digit or dash. -/
def validName (s : JStr) : Bool :=
  match s with
  | [] => false
  | c :: rest => ('a' ≤ c && c ≤ 'z') && !rest.isEmpty && rest.all isNameChar

example : validName "reviews".toList = true := by decide
example : validName "Reviews".toList = false := by decide
example : validName "a".toList = false := by decide
example : validName "plugin".toList = true := by decide
example : stripPluginSuffix "reviews-plugin".toList = "reviews".toList := by decide
example : stripPluginSuffix "reviewsplugin".toList = "reviews".toList := by decide
example : stripPluginSuffix "plugin".toList = [] := by decide

/-- Word characters for case-conversion segmentation. -/
def isWordChar (c : Char) : Bool := c.isAlpha || c.isDigit

/-- Modelled from the spec: word segmentation of the Case Converter (spec
section 4.1), standing in for the external `change-case` dependency.  Runs
of non-alphanumeric characters separate words; the inputs this command ever
feeds it are validated lowercase kebab names, for which separator splitting
is the whole contract. -/
def splitWordsAux : List Char → List Char → List JStr
  | [], acc => if acc.isEmpty then [] else [acc.reverse]
  | c :: rest, acc =>
    if isWordChar c then splitWordsAux rest (c :: acc)
    else if acc.isEmpty then splitWordsAux rest []
    else acc.reverse :: splitWordsAux rest []

def splitWords (s : JStr) : List JStr := splitWordsAux s []

/-- Uppercase first character, lowercase the rest of a word. -/
def capitalizeWord : JStr → JStr
  | [] => []
  | c :: rest => c.toUpper :: rest.map Char.toLower

/-- Modelled from the spec: `pascalCase` of the Case Converter (spec
section 4.1). -/
def pascalCase (s : JStr) : JStr := ((splitWords s).map capitalizeWord).flatten

/-- Modelled from the spec: `constantCase` of the Case Converter (spec
section 4.1). -/
def constantCase (s : JStr) : JStr :=
  List.intercalate "_".toList ((splitWords s).map (List.map Char.toUpper))

/-- Modelled from the spec: `paramCase` (kebab-case) of the Case Converter
(spec section 4.1). -/
def paramCase (s : JStr) : JStr :=
  List.intercalate "-".toList ((splitWords s).map (List.map Char.toLower))

example : pascalCase "reviews-plugin".toList = "ReviewsPlugin".toList := by decide
example : constantCase "reviews-plugin".toList = "REVIEWS_PLUGIN".toList := by decide
example : paramCase "reviews".toList = "reviews".toList := by decide
example : paramCase [] = [] := by decide

/-- Modelled from the spec: Node `path.join` restricted to the shapes this
command produces (plain segments, empty strings dropped, no dot
normalization), with `path.sep` fixed to the slash. -/
def pathJoin (a b : JStr) : JStr :=
  if a.isEmpty then b else if b.isEmpty then a else a ++ '/' :: b

/-- Condition of line 149: the final segment of `cwd.split(path.sep)` is
literally `plugins`. -/
def inPluginsDir (cwd : JStr) : Bool :=
  (cwd.splitOn '/').getLastD [] = "plugins".toList

/-- Embedding of `getPluginDirName` (lines 146-160).  `process.cwd()` and
the `fs.pathExistsSync(path.join(cwd, 'package.json'))` probe are external
state, passed in as `cwd` and `packageJsonExists`. -/
def getPluginDirName (cwd : JStr) (packageJsonExists : Bool) (name : JStr) : JStr :=
  let nameWithoutPlugin := stripPluginSuffix name
  if inPluginsDir cwd then pathJoin cwd (paramCase nameWithoutPlugin)
  else if packageJsonExists then
    pathJoin (pathJoin (pathJoin cwd "src".toList) "plugins".toList)
      (paramCase nameWithoutPlugin)
  else pathJoin cwd (paramCase nameWithoutPlugin)

example :
    getPluginDirName "/home/me/plugins".toList false "reviews".toList =
      "/home/me/plugins/reviews".toList := by decide
example :
    getPluginDirName "/home/me/shop".toList true "reviews".toList =
      "/home/me/shop/src/plugins/reviews".toList := by decide
example :
    getPluginDirName "/home/me/shop".toList false "reviews-plugin".toList =
      "/home/me/shop/reviews".toList := by decide

/-- `GeneratePluginOptions` from `types.ts` as used here: `name`,
`customEntityName` (never populated on this path), `pluginDir`. -/
structure GeneratePluginOptions where
  name : JStr
  customEntityName : JStr
  pluginDir : JStr
deriving DecidableEq

/-- `NewPluginTemplateContext`: the options plus the two derived names
(lines 108-112). -/
structure NewPluginTemplateContext where
  name : JStr
  customEntityName : JStr
  pluginDir : JStr
  pluginName : JStr
  pluginInitOptionsName : JStr
deriving DecidableEq

/-- Derivation of the template context (lines 106-112): normalize the name,
then `pluginName = pascalCase(normalizedName)` and
`pluginInitOptionsName = constantCase(normalizedName) + '_OPTIONS'`. -/
def mkTemplateContext (options : GeneratePluginOptions) : NewPluginTemplateContext :=
  let normalizedName := normalizeName options.name
  { name := options.name
    customEntityName := options.customEntityName
    pluginDir := options.pluginDir
    pluginName := pascalCase normalizedName
    pluginInitOptionsName := constantCase normalizedName ++ "_OPTIONS".toList }

/-- `VendurePluginRef`: wraps the renamed plugin class declaration; `name`
is the class name, `sourceFilePath` the file the class lives in after the
move. -/
structure VendurePluginRef where
  name : JStr
  sourceFilePath : JStr
deriving DecidableEq

deriving instance DecidableEq for Except

/-- Which declarations the three loaded template files actually contain.
The real templates ship with the CLI; the error paths of `generatePlugin`
exist precisely because a corrupted template set may lack them, so the
presence of each looked-up declaration is an input of the model. -/
structure TemplateEnv where
  hasTemplatePluginClass : Bool
  hasTemplateOptionsVar : Bool
  hasLoggerCtxVar : Bool
deriving DecidableEq

/-- The feature choices of the menu at lines 73-85, minus the terminating
`no`. -/
inductive FeatureChoice
  | entity
  | service
  | uiExtensions
  | codegen
deriving DecidableEq

/-- Observable effects of a run, in order.  `templateLoaded` is a disk
read; `pluginFilesSaved` is the `project.save()` of line 142 (the only
write of `generatePlugin`); `configSaved` is the save of line 68;
`featureAdded` stands for the writes the external feature generators
perform.  The remaining constructors are in-memory AST edits or console
output. -/
inductive Eff
  | templateLoaded (templatePath : JStr)
  | classRenamed (oldName newName : JStr)
  | varRenamed (oldName newName : JStr)
  | initializerSet (varName init : JStr)
  | fileMoved (toPath : JStr)
  | pluginFilesSaved
  | configPluginAppended (expr : JStr)
  | importAdded (importedName moduleSpecifier : JStr)
  | configSaved
  | featureAdded (f : FeatureChoice)
  | cancelMessageShown
  | outroShown
deriving DecidableEq

/-- True exactly for the effects that write to the filesystem. -/
def isDiskWrite : Eff → Bool
  | .pluginFilesSaved => true
  | .configSaved => true
  | .featureAdded _ => true
  | _ => false

/-- True exactly for a variable rename edit. -/
def isVarRenamed : Eff → Bool
  | .varRenamed _ _ => true
  | _ => false

/-- True exactly for a feature-generator invocation. -/
def isFeatureAdd : Eff → Bool
  | .featureAdded _ => true
  | _ => false

/-- Embedding of `generatePlugin` (lines 105-144).  Returns the result
(`VendurePluginRef`, or the thrown error message) together with the trace
of effects the call performed.  Order follows the source: load the plugin
template, look up `TemplatePlugin` and throw if absent, rename it, load the
types and constants templates, optionally edit the two constants
declarations (the source uses optional chaining, so a missing declaration
is skipped), move the three files, then `project.save()`. -/
def generatePlugin (env : TemplateEnv) (options : GeneratePluginOptions) :
    Except JStr VendurePluginRef × List Eff :=
  let ctx := mkTemplateContext options
  let nameWithoutPlugin := stripPluginSuffix options.name
  let loadPlugin : List Eff := [.templateLoaded "templates/plugin.template.ts".toList]
  if env.hasTemplatePluginClass = false then
    (.error "Could not find the plugin class in the generated file".toList, loadPlugin)
  else
    let pluginFilePath :=
      pathJoin options.pluginDir (paramCase nameWithoutPlugin ++ ".plugin.ts".toList)
    let constantsEdits : List Eff :=
      (if env.hasTemplateOptionsVar then
        [.varRenamed "TEMPLATE_PLUGIN_OPTIONS".toList ctx.pluginInitOptionsName,
         .initializerSet ctx.pluginInitOptionsName
           ("Symbol('".toList ++ ctx.pluginInitOptionsName ++ "')".toList)]
       else []) ++
      (if env.hasLoggerCtxVar then
        [.initializerSet "loggerCtx".toList
           ("'".toList ++ ctx.pluginName ++ "'".toList)]
       else [])
    let trace := loadPlugin
      ++ [.classRenamed "TemplatePlugin".toList ctx.pluginName]
      ++ [.templateLoaded "templates/types.template.ts".toList]
      ++ [.templateLoaded "templates/constants.template.ts".toList]
      ++ constantsEdits
      ++ [.fileMoved (pathJoin options.pluginDir "types.ts".toList),
          .fileMoved pluginFilePath,
          .fileMoved (pathJoin options.pluginDir "constants.ts".toList)]
      ++ [.pluginFilesSaved]
    (.ok { name := ctx.pluginName, sourceFilePath := pluginFilePath }, trace)

example :
    (generatePlugin ⟨true, true, true⟩
        ⟨"reviews".toList, [], "/p/reviews".toList⟩).1 =
      Except.ok ⟨"ReviewsPlugin".toList, "/p/reviews/reviews.plugin.ts".toList⟩ := by
  decide
example :
    (generatePlugin ⟨false, true, true⟩
        ⟨"reviews".toList, [], "/p/reviews".toList⟩).1 =
      Except.error "Could not find the plugin class in the generated file".toList := by
  decide

/-- Modelled from the spec: the application configuration file as seen by
the Config Reference (spec sections 2 and 4.4) — its plugins-list entries
(as expression texts) and its named imports, each import paired with its
module specifier.  The backing `VendureConfigRef` and `ast-utils` sources
live outside this source tree. -/
structure VendureConfig where
  plugins : List JStr
  imports : List (JStr × JStr)
deriving DecidableEq

/-- Modelled from the spec: `VendureConfigRef.addToPluginsArray` (spec
section 4.4) appends one expression to the configuration's plugins list. -/
def addToPluginsArray (cfg : VendureConfig) (expr : JStr) : VendureConfig :=
  { cfg with plugins := cfg.plugins ++ [expr] }

/-- Modelled from the spec: `addImportsToFile` (spec section 4.4) ensures
the configuration file imports `importedName` from `moduleSpecifier`,
adding the import when it is not already present. -/
def addImportsToFile (cfg : VendureConfig) (moduleSpecifier importedName : JStr) :
    VendureConfig :=
  if (importedName, moduleSpecifier) ∈ cfg.imports then cfg
  else { cfg with imports := cfg.imports ++ [(importedName, moduleSpecifier)] }

/-- The config-patch step of `createNewPlugin` (lines 62-68): append
`<pluginName>.init(\x7b\x7d)` to the plugins array, add the import of the
plugin name from its source file, then save the project.  Returns the new
config and the effect trace of the step. -/
def patchVendureConfig (cfg : VendureConfig) (plugin : VendurePluginRef) :
    VendureConfig × List Eff :=
  let initExpr := plugin.name ++ ".init(\x7b\x7d)".toList
  let cfg1 := addToPluginsArray cfg initExpr
  let cfg2 := addImportsToFile cfg1 plugin.sourceFilePath plugin.name
  (cfg2,
   [.configPluginAppended initExpr,
    .importAdded plugin.name plugin.sourceFilePath,
    .configSaved])

/-- Result of one interactive prompt: the user either cancels or submits a
value. -/
inductive PromptResult (α : Type)
  | cancel
  | value (v : α)
deriving DecidableEq

/-- Modelled from the spec: the re-prompt loop of the `clack` `text` prompt
(spec section 4.2, "prompts until a syntactically valid name is supplied or
the user cancels").  `attempts` is the user's successive console entries;
a validator returning `some message` re-prompts, `none` accepts.  `none`
overall means the script of attempts ran out with the prompt still open. -/
def promptLoop (validate : JStr → Option JStr) :
    List (PromptResult JStr) → Option (PromptResult JStr)
  | [] => none
  | .cancel :: _ => some .cancel
  | .value v :: rest =>
    match validate v with
    | none => some (.value v)
    | some _ => promptLoop validate rest

/-- The name-prompt validator of lines 25-29: reject anything failing the
name regex, with the fixed error message. -/
def nameValidate (input : JStr) : Option JStr :=
  if validName input then none
  else some "The plugin name must be lowercase and contain only letters, numbers and dashes".toList

/-- The directory-prompt validator of lines 44-48: reject any path that
already exists on disk.  `fsExists` embeds `fs.existsSync`. -/
def dirValidate (fsExists : JStr → Bool) (input : JStr) : Option JStr :=
  if fsExists input then
    some ("A directory named \"".toList ++ input
      ++ "\" already exists. Please specify a different directory.".toList)
  else none

/-- `cancelledMessage` of line 16. -/
def cancelledMessage : JStr := "Plugin setup cancelled.".toList

/-- One selection at the feature menu (lines 73-85): cancel, finish
(`no`), or one of the four feature generators. -/
inductive MenuInput
  | cancel
  | finish
  | feature (f : FeatureChoice)
deriving DecidableEq

/-- The `while (!done)` menu loop of lines 71-100.  Consumes successive
menu selections; cancel and `no` both just set `done` (the source prints
no cancellation message there), a feature choice invokes its generator and
loops.  Returns the trace and whether the loop terminated (`false` means
the selection script ran out with the menu still open). -/
def runFeatureMenu : List MenuInput → List Eff × Bool
  | [] => ([], false)
  | .cancel :: _ => ([], true)
  | .finish :: _ => ([], true)
  | .feature f :: rest =>
    let (es, fin) := runFeatureMenu rest
    (.featureAdded f :: es, fin)

/-- External state of one `createNewPlugin` run: the template contents,
the filesystem-existence probe used by the directory validator, and the
initial configuration file. -/
structure FlowEnv where
  templates : TemplateEnv
  fsExists : JStr → Bool
  initialConfig : VendureConfig

/-- The user's console script for one run. -/
structure FlowInput where
  nameAttempts : List (PromptResult JStr)
  dirAttempts : List (PromptResult JStr)
  menuInputs : List MenuInput

/-- How a run ends: `cancelledExit m c` is `cancel(m); process.exit(c)`,
`fatalError m` an uncaught thrown error, `completed` the `outro` path, and
`awaitingInput` means the console script was exhausted at an open
prompt. -/
inductive FlowOutcome
  | cancelledExit (message : JStr) (code : Nat)
  | fatalError (message : JStr)
  | completed
  | awaitingInput
deriving DecidableEq

/-- Embedding of `createNewPlugin` (lines 18-103): name prompt (cancel
exits 0 with the cancelled message), directory prompt (likewise), plugin
generation (a thrown error propagates), config patch, then the feature
menu loop and the closing `outro`. -/
def createNewPlugin (env : FlowEnv) (input : FlowInput) : FlowOutcome × List Eff :=
  match promptLoop nameValidate input.nameAttempts with
  | none => (.awaitingInput, [])
  | some .cancel => (.cancelledExit cancelledMessage 0, [.cancelMessageShown])
  | some (.value name) =>
    match promptLoop (dirValidate env.fsExists) input.dirAttempts with
    | none => (.awaitingInput, [])
    | some .cancel => (.cancelledExit cancelledMessage 0, [.cancelMessageShown])
    | some (.value pluginDir) =>
      let opts : GeneratePluginOptions :=
        { name := name, customEntityName := [], pluginDir := pluginDir }
      match generatePlugin env.templates opts with
      | (.error msg, genTrace) => (.fatalError msg, genTrace)
      | (.ok plugin, genTrace) =>
        let cfgTrace := (patchVendureConfig env.initialConfig plugin).2
        let (menuTrace, finished) := runFeatureMenu input.menuInputs
        if finished then
          (.completed, genTrace ++ cfgTrace ++ menuTrace ++ [.outroShown])
        else (.awaitingInput, genTrace ++ cfgTrace ++ menuTrace)

lemma toLowerStr_append (s t : JStr) :
    toLowerStr (s ++ t) = toLowerStr s ++ toLowerStr t := by
  simp [toLowerStr]

/-- Stripping the plugin suffix right after appending `-plugin` recovers
the original string: the first branch of the strip always fires. -/
lemma strip_append_dash_plugin (t : JStr) :
    stripPluginSuffix (t ++ "-plugin".toList) = t := by
  unfold stripPluginSuffix
  have hsuf : "-plugin".toList <:+ toLowerStr (t ++ "-plugin".toList) := by
    rw [toLowerStr_append]
    have h2 : toLowerStr "-plugin".toList = "-plugin".toList := by decide
    rw [h2]
    exact List.suffix_append _ _
  rw [if_pos hsuf, List.length_append]
  have h7 : ("-plugin".toList : JStr).length = 7 := by decide
  rw [h7, Nat.add_sub_cancel]
  exact List.take_left t _

/-- C1: for every input accepted by the name regex `^[a-z][a-z-0-9]+$`, the
normalization "strip an optional trailing plugin suffix, then append
`-plugin`" is idempotent: `normalizeName (normalizeName x) =
normalizeName x`. -/
theorem C1_name_normalization_idempotent (x : JStr) (h : validName x = true) :
    normalizeName (normalizeName x) = normalizeName x := by
  unfold normalizeName
  rw [strip_append_dash_plugin]

theorem C1_name_normalization_idempotent_witness :
    validName "reviews".toList = true ∧
      normalizeName (normalizeName "reviews".toList) = normalizeName "reviews".toList :=
  ⟨by decide, C1_name_normalization_idempotent "reviews".toList (by decide)⟩

/-- C2: the template context derived for name `reviews` has
`pluginName = ReviewsPlugin` and
`pluginInitOptionsName = REVIEWS_PLUGIN_OPTIONS`, and the context derived
for `reviews-plugin` yields the identical two fields (suffix
collapsing). -/
theorem C2_reviews_template_context :
    (mkTemplateContext ⟨"reviews".toList, [], []⟩).pluginName = "ReviewsPlugin".toList
  ∧ (mkTemplateContext ⟨"reviews".toList, [], []⟩).pluginInitOptionsName =
      "REVIEWS_PLUGIN_OPTIONS".toList
  ∧ (mkTemplateContext ⟨"reviews-plugin".toList, [], []⟩).pluginName =
      (mkTemplateContext ⟨"reviews".toList, [], []⟩).pluginName
  ∧ (mkTemplateContext ⟨"reviews-plugin".toList, [], []⟩).pluginInitOptionsName =
      (mkTemplateContext ⟨"reviews".toList, [], []⟩).pluginInitOptionsName := by
  decide

lemma pathJoin_ne_nil (a b : JStr) (hb : b ≠ []) : pathJoin a b ≠ [] := by
  simp only [pathJoin]
  split
  · exact hb
  · next ha =>
    split
    · intro h; subst h; simp at ha
    · simp

lemma pathJoin_eq (a b : JStr) (ha : a ≠ []) (hb : b ≠ []) :
    pathJoin a b = a ++ '/' :: b := by
  simp [pathJoin, ha, hb]

/-- C3: the default plugin-directory computation follows the precedence
(1) cwd ends in a `plugins` segment, (2) a `package.json` manifest exists
under cwd, (3) otherwise, yielding the joined paths of the claim; for the
name `reviews` the three cases give `<cwd>/reviews`,
`<cwd>/src/plugins/reviews` and `<cwd>/reviews`. -/
theorem C3_plugin_dir_policy (cwd name : JStr) (pj : Bool)
    (hname : validName name = true) (hcwd : cwd ≠ []) :
    (inPluginsDir cwd = true →
        getPluginDirName cwd pj name = pathJoin cwd (paramCase (stripPluginSuffix name)))
  ∧ (inPluginsDir cwd = false → pj = true →
        getPluginDirName cwd pj name =
          pathJoin (pathJoin (pathJoin cwd "src".toList) "plugins".toList)
            (paramCase (stripPluginSuffix name)))
  ∧ (inPluginsDir cwd = false → pj = false →
        getPluginDirName cwd pj name = pathJoin cwd (paramCase (stripPluginSuffix name)))
  ∧ (inPluginsDir cwd = true →
        getPluginDirName cwd pj "reviews".toList = cwd ++ "/reviews".toList)
  ∧ (inPluginsDir cwd = false →
        getPluginDirName cwd true "reviews".toList = cwd ++ "/src/plugins/reviews".toList)
  ∧ (inPluginsDir cwd = false →
        getPluginDirName cwd false "reviews".toList = cwd ++ "/reviews".toList) := by
  have hkeb : paramCase (stripPluginSuffix "reviews".toList) = "reviews".toList := by decide
  refine ⟨?_, ?_, ?_, ?_, ?_, ?_⟩
  · intro h1; simp [getPluginDirName, h1]
  · intro h1 h2; subst h2; simp [getPluginDirName, h1]
  · intro h1 h2; subst h2; simp [getPluginDirName, h1]
  · intro h1
    simp only [getPluginDirName, h1, if_true]
    rw [hkeb, pathJoin_eq _ _ hcwd (by decide)]
    rfl
  · intro h1
    simp only [getPluginDirName, h1, Bool.false_eq_true, if_false, if_true]
    rw [hkeb, pathJoin_eq cwd "src".toList hcwd (by decide),
      pathJoin_eq (cwd ++ '/' :: "src".toList) "plugins".toList (by simp) (by decide),
      pathJoin_eq ((cwd ++ '/' :: "src".toList) ++ '/' :: "plugins".toList)
        "reviews".toList (by simp) (by decide)]
    simp only [List.append_assoc]
    rfl
  · intro h1
    simp only [getPluginDirName, h1, Bool.false_eq_true, if_false]
    rw [hkeb, pathJoin_eq _ _ hcwd (by decide)]
    rfl

theorem C3_plugin_dir_policy_witness :
    (inPluginsDir "/home/me/plugins".toList = true →
        getPluginDirName "/home/me/plugins".toList false "reviews".toList =
          pathJoin "/home/me/plugins".toList
            (paramCase (stripPluginSuffix "reviews".toList)))
  ∧ (inPluginsDir "/home/me/plugins".toList = false → false = true →
        getPluginDirName "/home/me/plugins".toList false "reviews".toList =
          pathJoin
            (pathJoin (pathJoin "/home/me/plugins".toList "src".toList) "plugins".toList)
            (paramCase (stripPluginSuffix "reviews".toList)))
  ∧ (inPluginsDir "/home/me/plugins".toList = false → false = false →
        getPluginDirName "/home/me/plugins".toList false "reviews".toList =
          pathJoin "/home/me/plugins".toList
            (paramCase (stripPluginSuffix "reviews".toList)))
  ∧ (inPluginsDir "/home/me/plugins".toList = true →
        getPluginDirName "/home/me/plugins".toList false "reviews".toList =
          "/home/me/plugins".toList ++ "/reviews".toList)
  ∧ (inPluginsDir "/home/me/plugins".toList = false →
        getPluginDirName "/home/me/plugins".toList true "reviews".toList =
          "/home/me/plugins".toList ++ "/src/plugins/reviews".toList)
  ∧ (inPluginsDir "/home/me/plugins".toList = false →
        getPluginDirName "/home/me/plugins".toList false "reviews".toList =
          "/home/me/plugins".toList ++ "/reviews".toList) :=
  C3_plugin_dir_policy "/home/me/plugins".toList "reviews".toList false
    (by decide) (by decide)

/-- A healthy template set: all three looked-up declarations present. -/
def goodTemplates : TemplateEnv := ⟨true, true, true⟩

/-- A configuration file with no plugins and no imports yet. -/
def emptyConfig : VendureConfig := { plugins := [], imports := [] }

/-- A demo run environment: healthy templates, nothing exists on disk,
empty config. -/
def demoEnv : FlowEnv :=
  { templates := goodTemplates, fsExists := fun _ => false, initialConfig := emptyConfig }

/-- A console script that enters `reviews`, accepts a fresh directory, and
then cancels at the feature menu. -/
def menuCancelInput : FlowInput :=
  { nameAttempts := [.value "reviews".toList]
    dirAttempts := [.value "/p/reviews".toList]
    menuInputs := [.cancel] }

/-- C4 counterexample: cancelling at the feature menu does not terminate
with the fixed cancellation message — the run falls through to the normal
completion outro (`done = true` at line 87), so the claim "cancellation at
any prompt terminates the process with the fixed cancellation message" is
false at this input. -/
theorem C4_menu_cancel_counterexample :
    (createNewPlugin demoEnv menuCancelInput).1 = FlowOutcome.completed
  ∧ Eff.cancelMessageShown ∉ (createNewPlugin demoEnv menuCancelInput).2 := by
  decide

/-- C4 (amended): cancellation at the name or directory prompt terminates
the process immediately with the fixed cancellation message and exit code
0, performing no mutation; cancellation at the feature menu instead just
ends the feature loop — no further feature generator runs, no cancellation
message is shown, and the run completes normally. -/
theorem C4_cancellation_behavior (env : FlowEnv) (input : FlowInput)
    (rest : List MenuInput) (n d : JStr)
    (hmenu : input.menuInputs = MenuInput.cancel :: rest) :
    (promptLoop nameValidate input.nameAttempts = some PromptResult.cancel →
        createNewPlugin env input =
          (FlowOutcome.cancelledExit cancelledMessage 0, [Eff.cancelMessageShown]))
  ∧ (promptLoop nameValidate input.nameAttempts = some (PromptResult.value n) →
     promptLoop (dirValidate env.fsExists) input.dirAttempts = some PromptResult.cancel →
        createNewPlugin env input =
          (FlowOutcome.cancelledExit cancelledMessage 0, [Eff.cancelMessageShown]))
  ∧ runFeatureMenu input.menuInputs = ([], true)
  ∧ (promptLoop nameValidate input.nameAttempts = some (PromptResult.value n) →
     promptLoop (dirValidate env.fsExists) input.dirAttempts = some (PromptResult.value d) →
     env.templates.hasTemplatePluginClass = true →
        (createNewPlugin env input).1 = FlowOutcome.completed
        ∧ Eff.cancelMessageShown ∉ (createNewPlugin env input).2
        ∧ ((createNewPlugin env input).2).countP isFeatureAdd = 0) := by
  refine ⟨?_, ?_, ?_, ?_⟩
  · intro h1; simp [createNewPlugin, h1]
  · intro h1 h2; simp [createNewPlugin, h1, h2]
  · rw [hmenu, runFeatureMenu]
  · intro h1 h2 h3
    simp only [createNewPlugin, h1, h2, hmenu]
    cases h4 : env.templates.hasTemplateOptionsVar <;>
      cases h5 : env.templates.hasLoggerCtxVar <;>
        simp [generatePlugin, patchVendureConfig, runFeatureMenu, h3, h4, h5,
          isFeatureAdd, addToPluginsArray, addImportsToFile, List.countP_append,
          List.countP_cons]

theorem C4_cancellation_behavior_witness :
    (promptLoop nameValidate menuCancelInput.nameAttempts = some PromptResult.cancel →
        createNewPlugin demoEnv menuCancelInput =
          (FlowOutcome.cancelledExit cancelledMessage 0, [Eff.cancelMessageShown]))
  ∧ (promptLoop nameValidate menuCancelInput.nameAttempts =
        some (PromptResult.value "reviews".toList) →
     promptLoop (dirValidate demoEnv.fsExists) menuCancelInput.dirAttempts =
        some PromptResult.cancel →
        createNewPlugin demoEnv menuCancelInput =
          (FlowOutcome.cancelledExit cancelledMessage 0, [Eff.cancelMessageShown]))
  ∧ runFeatureMenu menuCancelInput.menuInputs = ([], true)
  ∧ (promptLoop nameValidate menuCancelInput.nameAttempts =
        some (PromptResult.value "reviews".toList) →
     promptLoop (dirValidate demoEnv.fsExists) menuCancelInput.dirAttempts =
        some (PromptResult.value "/p/reviews".toList) →
     demoEnv.templates.hasTemplatePluginClass = true →
        (createNewPlugin demoEnv menuCancelInput).1 = FlowOutcome.completed
        ∧ Eff.cancelMessageShown ∉ (createNewPlugin demoEnv menuCancelInput).2
        ∧ ((createNewPlugin demoEnv menuCancelInput).2).countP isFeatureAdd = 0) :=
  C4_cancellation_behavior demoEnv menuCancelInput [] "reviews".toList
    "/p/reviews".toList (by decide)

/-- The options for a demo `reviews` generation run. -/
def optsReviews : GeneratePluginOptions :=
  { name := "reviews".toList, customEntityName := [], pluginDir := "/p/reviews".toList }

/-- C5 counterexample: with the options-symbol variable declaration missing
from the constants template (optional chaining at lines 129-132),
`generatePlugin` succeeds anyway — no variable rename happens and no error
is raised — so "every missing expected declaration causes a fatal error"
is false. -/
theorem C5_missing_var_counterexample :
    (generatePlugin ⟨true, false, true⟩ optsReviews).1 =
      Except.ok ⟨"ReviewsPlugin".toList, "/p/reviews/reviews.plugin.ts".toList⟩
  ∧ ((generatePlugin ⟨true, false, true⟩ optsReviews).2).countP isVarRenamed = 0 := by
  decide

/-- C5 (amended): only a missing plugin class declaration is fatal — it
aborts the command with the descriptive message of line 122; a missing
options-symbol or logging-context variable declaration is silently skipped
(the source uses optional chaining) and generation continues to
success. -/
theorem C5_template_error_behavior (env : TemplateEnv) (opts : GeneratePluginOptions) :
    (env.hasTemplatePluginClass = false →
        (generatePlugin env opts).1 =
          Except.error "Could not find the plugin class in the generated file".toList)
  ∧ (env.hasTemplatePluginClass = true → (generatePlugin env opts).1.isOk = true)
  ∧ (env.hasTemplatePluginClass = true → env.hasTemplateOptionsVar = false →
        ((generatePlugin env opts).2).countP isVarRenamed = 0) := by
  refine ⟨?_, ?_, ?_⟩
  · intro h1; simp [generatePlugin, h1]
  · intro h1; simp [generatePlugin, h1, Except.isOk, Except.toBool]
  · intro h1 h2
    cases h5 : env.hasLoggerCtxVar <;>
      simp [generatePlugin, h1, h2, h5, isVarRenamed, List.countP_append,
        List.countP_cons]

theorem C5_template_error_behavior_witness :
    ((⟨true, false, true⟩ : TemplateEnv).hasTemplatePluginClass = false →
        (generatePlugin ⟨true, false, true⟩ optsReviews).1 =
          Except.error "Could not find the plugin class in the generated file".toList)
  ∧ ((⟨true, false, true⟩ : TemplateEnv).hasTemplatePluginClass = true →
        (generatePlugin ⟨true, false, true⟩ optsReviews).1.isOk = true)
  ∧ ((⟨true, false, true⟩ : TemplateEnv).hasTemplatePluginClass = true →
     (⟨true, false, true⟩ : TemplateEnv).hasTemplateOptionsVar = false →
        ((generatePlugin ⟨true, false, true⟩ optsReviews).2).countP isVarRenamed = 0) :=
  C5_template_error_behavior ⟨true, false, true⟩ optsReviews

/-- C6: `generatePlugin` writes nothing to disk when it fails, and on
success performs exactly one disk write — the final `project.save()` of
line 142, which is the last step of the whole operation. -/
theorem C6_single_flush_at_end (env : TemplateEnv) (opts : GeneratePluginOptions) :
    ((generatePlugin env opts).1.isOk = false →
        ((generatePlugin env opts).2).countP isDiskWrite = 0)
  ∧ ((generatePlugin env opts).1.isOk = true →
        ((generatePlugin env opts).2).getLast? = some Eff.pluginFilesSaved
        ∧ ((generatePlugin env opts).2).countP isDiskWrite = 1) := by
  cases h1 : env.hasTemplatePluginClass <;>
    cases h4 : env.hasTemplateOptionsVar <;>
      cases h5 : env.hasLoggerCtxVar <;>
        refine ⟨?_, ?_⟩ <;> intro h <;>
          simp_all [generatePlugin, isDiskWrite, Except.isOk, Except.toBool,
            List.countP_append, List.countP_cons]

theorem C6_single_flush_at_end_witness :
    ((generatePlugin goodTemplates optsReviews).1.isOk = false →
        ((generatePlugin goodTemplates optsReviews).2).countP isDiskWrite = 0)
  ∧ ((generatePlugin goodTemplates optsReviews).1.isOk = true →
        ((generatePlugin goodTemplates optsReviews).2).getLast? =
          some Eff.pluginFilesSaved
        ∧ ((generatePlugin goodTemplates optsReviews).2).countP isDiskWrite = 1) :=
  C6_single_flush_at_end goodTemplates optsReviews

/-- The plugin reference a successful `reviews` generation returns. -/
def demoPluginRef : VendurePluginRef :=
  { name := "ReviewsPlugin".toList, sourceFilePath := "/p/reviews/reviews.plugin.ts".toList }

/-- C7: given the generated plugin reference, the config-patch step appends
exactly one `<pluginName>.init(\x7b\x7d)` entry to the plugins list, adds
exactly one import of the plugin name from its source file (when it is not
already imported), and persists at the end of the step. -/
theorem C7_config_patch (cfg : VendureConfig) (plugin : VendurePluginRef)
    (h : (plugin.name, plugin.sourceFilePath) ∉ cfg.imports) :
    (patchVendureConfig cfg plugin).1.plugins =
        cfg.plugins ++ [plugin.name ++ ".init(\x7b\x7d)".toList]
  ∧ (patchVendureConfig cfg plugin).1.imports =
        cfg.imports ++ [(plugin.name, plugin.sourceFilePath)]
  ∧ ((patchVendureConfig cfg plugin).2).getLast? = some Eff.configSaved := by
  refine ⟨?_, ?_, rfl⟩ <;>
    simp [patchVendureConfig, addToPluginsArray, addImportsToFile, h]

theorem C7_config_patch_witness :
    (patchVendureConfig emptyConfig demoPluginRef).1.plugins =
        emptyConfig.plugins ++ [demoPluginRef.name ++ ".init(\x7b\x7d)".toList]
  ∧ (patchVendureConfig emptyConfig demoPluginRef).1.imports =
        emptyConfig.imports ++ [(demoPluginRef.name, demoPluginRef.sourceFilePath)]
  ∧ ((patchVendureConfig emptyConfig demoPluginRef).2).getLast? =
        some Eff.configSaved :=
  C7_config_patch emptyConfig demoPluginRef (by decide)

/-- C8: the directory prompt never accepts a path that already exists —
any accepted value fails the existence probe — and submitting an existing
path just re-prompts (the loop continues on the remaining attempts). -/
theorem C8_existing_dir_reprompt (ex : JStr → Bool)
    (attempts : List (PromptResult JStr)) (v bad : JStr) (hbad : ex bad = true) :
    (promptLoop (dirValidate ex) attempts = some (PromptResult.value v) →
        ex v = false)
  ∧ promptLoop (dirValidate ex) (PromptResult.value bad :: attempts) =
      promptLoop (dirValidate ex) attempts := by
  constructor
  · induction attempts with
    | nil => intro h; simp [promptLoop] at h
    | cons a rest ih =>
      intro h
      cases a with
      | cancel => simp [promptLoop] at h
      | value w =>
        rw [promptLoop] at h
        cases hw : ex w with
        | false =>
          simp [dirValidate, hw] at h
          subst h
          exact hw
        | true =>
          simp [dirValidate, hw] at h
          exact ih h
  · simp [promptLoop, dirValidate, hbad]

theorem C8_existing_dir_reprompt_witness :
    (promptLoop (dirValidate (fun s => decide (s = "/exists".toList)))
        [PromptResult.value "/fresh".toList] =
          some (PromptResult.value "/fresh".toList) →
        (fun (s : JStr) => decide (s = "/exists".toList)) "/fresh".toList = false)
  ∧ promptLoop (dirValidate (fun s => decide (s = "/exists".toList)))
        (PromptResult.value "/exists".toList :: [PromptResult.value "/fresh".toList]) =
      promptLoop (dirValidate (fun s => decide (s = "/exists".toList)))
        [PromptResult.value "/fresh".toList] :=
  C8_existing_dir_reprompt (fun s => decide (s = "/exists".toList))
    [PromptResult.value "/fresh".toList] "/fresh".toList "/exists".toList (by decide)

/-- C9: cancelling at the name prompt exits through the cancellation path
with exit code 0 and the fixed message, having performed no filesystem
write of any kind — the whole effect trace is the cancellation message. -/
theorem C9_name_cancel_no_writes (env : FlowEnv) (input : FlowInput)
    (h : promptLoop nameValidate input.nameAttempts = some PromptResult.cancel) :
    createNewPlugin env input =
        (FlowOutcome.cancelledExit cancelledMessage 0, [Eff.cancelMessageShown])
  ∧ ((createNewPlugin env input).2).countP isDiskWrite = 0 := by
  have h2 : createNewPlugin env input =
      (FlowOutcome.cancelledExit cancelledMessage 0, [Eff.cancelMessageShown]) := by
    simp [createNewPlugin, h]
  exact ⟨h2, by rw [h2]; rfl⟩

/-- A console script that cancels immediately at the name prompt. -/
def cancelAtNameInput : FlowInput :=
  { nameAttempts := [PromptResult.cancel], dirAttempts := [], menuInputs := [] }

theorem C9_name_cancel_no_writes_witness :
    createNewPlugin demoEnv cancelAtNameInput =
        (FlowOutcome.cancelledExit cancelledMessage 0, [Eff.cancelMessageShown])
  ∧ ((createNewPlugin demoEnv cancelAtNameInput).2).countP isDiskWrite = 0 :=
  C9_name_cancel_no_writes demoEnv cancelAtNameInput (by decide)

lemma pathJoin_nil_right (a : JStr) : pathJoin a [] = a := by
  unfold pathJoin
  split
  · next ha => exact (List.isEmpty_iff.mp ha).symm
  · simp

/-- C10: the name `plugin` passes the validation regex and strips to the
empty string, so the default directory degenerates to the current working
directory itself (or `<cwd>/src/plugins` with a manifest, when cwd is not
itself a `plugins` directory), and the generated plugin file is named
`.plugin.ts` under the chosen directory. -/
theorem C10_plugin_name_edge (cwd d : JStr)
    (h : inPluginsDir cwd = false) (hcwd : cwd ≠ []) :
    validName "plugin".toList = true
  ∧ stripPluginSuffix "plugin".toList = []
  ∧ getPluginDirName cwd false "plugin".toList = cwd
  ∧ getPluginDirName cwd true "plugin".toList = cwd ++ "/src/plugins".toList
  ∧ paramCase (stripPluginSuffix "plugin".toList) ++ ".plugin.ts".toList =
      ".plugin.ts".toList
  ∧ (generatePlugin goodTemplates ⟨"plugin".toList, [], d⟩).1 =
      Except.ok ⟨"Plugin".toList, pathJoin d ".plugin.ts".toList⟩ := by
  have hkeb : paramCase (stripPluginSuffix "plugin".toList) = [] := by decide
  refine ⟨by decide, by decide, ?_, ?_, by decide, rfl⟩
  · simp only [getPluginDirName, h, Bool.false_eq_true, if_false]
    rw [hkeb, pathJoin_nil_right]
  · simp only [getPluginDirName, h, Bool.false_eq_true, if_false, if_true]
    rw [hkeb, pathJoin_nil_right, pathJoin_eq cwd "src".toList hcwd (by decide),
      pathJoin_eq (cwd ++ '/' :: "src".toList) "plugins".toList (by simp) (by decide)]
    simp only [List.append_assoc]
    rfl

theorem C10_plugin_name_edge_witness :
    validName "plugin".toList = true
  ∧ stripPluginSuffix "plugin".toList = []
  ∧ getPluginDirName "/app".toList false "plugin".toList = "/app".toList
  ∧ getPluginDirName "/app".toList true "plugin".toList =
      "/app".toList ++ "/src/plugins".toList
  ∧ paramCase (stripPluginSuffix "plugin".toList) ++ ".plugin.ts".toList =
      ".plugin.ts".toList
  ∧ (generatePlugin goodTemplates ⟨"plugin".toList, [], "/p".toList⟩).1 =
      Except.ok ⟨"Plugin".toList, pathJoin "/p".toList ".plugin.ts".toList⟩ :=
  C10_plugin_name_edge "/app".toList "/p".toList (by decide) (by decide)
